import Mathlib

/-!
Shallow embedding of the smaug bookmark-processing pipeline
(`src/processor.js`): link classification, content resolution,
deduplication, pending-queue merge and run-state persistence.
External effects (bird CLI, HTTP fetch, summarize CLI, GitHub API,
dayjs formatting) are modelled as explicit oracle functions; file
contents are threaded as explicit state.
-/

namespace Smaug

/-! ## String utilities (JS `String.includes`, `endsWith`, regex scans) -/

/-- JS `s.includes(pat)`: `pat` occurs as a contiguous substring of `s`. -/
def strContains (s pat : String) : Bool := decide (pat.data <:+: s.data)

/-- JS `\w` character class: `[A-Za-z0-9_]`. -/
def isWordChar (c : Char) : Bool := c.isAlphanum || c == '_'

/-- Consume a literal prefix of a character list, returning the rest. -/
def dropLit (pat l : List Char) : Option (List Char) :=
  if pat.isPrefixOf l then some (l.drop pat.length) else none

/-- Try a matcher at every position (first match wins), like a non-anchored regex. -/
def findFirst (f : List Char → Option β) : List Char → Option β
  | [] => f []
  | c :: t =>
    match f (c :: t) with
    | some r => some r
    | none => findFirst f t

/-- Global regex scan: repeatedly match, consuming matched text, else advance one
character.  `fuel` bounds recursion; callers pass the input length. -/
def scanAll (f : List Char → Option (β × List Char)) : Nat → List Char → List β
  | 0, _ => []
  | _ + 1, [] => []
  | n + 1, c :: t =>
    match f (c :: t) with
    | some (r, rest) => r :: scanAll f n rest
    | none => scanAll f n t

/-! ## Paywall domains and link classification (`PAYWALL_DOMAINS`,
`isPaywalled`, `detectLinkType`, `extractXArticleId`) -/

def PAYWALL_DOMAINS : List String :=
  ["nytimes.com", "wsj.com", "washingtonpost.com", "theatlantic.com",
   "newyorker.com", "bloomberg.com", "ft.com", "economist.com",
   "bostonglobe.com", "latimes.com", "wired.com"]

def isPaywalled (url : String) : Bool :=
  PAYWALL_DOMAINS.any (fun domain => strContains url domain)

/-- The image-extension set of the regex `\.(jpg|jpeg|png|gif|webp)$/i`. -/
def imageExts : List String := ["jpg", "jpeg", "png", "gif", "webp"]

/-- Case-insensitive test that the URL ends in `.` plus an image extension. -/
def hasImageExt (url : String) : Bool :=
  imageExts.any (fun e => decide (('.' :: e.data) <:+ url.data.map Char.toLower))

/-- Model of `detectLinkType` from the source: ordered substring tests, first match wins. -/
def detectLinkType (url : String) : String :=
  if strContains url "github.com" then "github"
  else if strContains url "youtube.com" || strContains url "youtu.be" then "video"
  else if strContains url "x.com" || strContains url "twitter.com" then
    if strContains url "/i/article/" then "x-article"
    else if strContains url "/photo/" || strContains url "/video/" then "media"
    else "tweet"
  else if hasImageExt url then "image"
  else "article"

/-- Matcher for the regex `x\.com\/i\/article\/(\d+)` at one position. -/
def matchXArticleAt (l : List Char) : Option String :=
  match dropLit "x.com/i/article/".data l with
  | some rest =>
    let d := rest.takeWhile Char.isDigit
    if d.isEmpty then none else some (String.mk d)
  | none => none

/-- Model of `extractXArticleId`: first match of `x\.com\/i\/article\/(\d+)`. -/
def extractXArticleId (url : String) : Option String :=
  findFirst matchXArticleAt url.data

/-- Matcher for the regex `status\/(\d+)` at one position. -/
def matchStatusAt (l : List Char) : Option String :=
  match dropLit "status/".data l with
  | some rest =>
    let d := rest.takeWhile Char.isDigit
    if d.isEmpty then none else some (String.mk d)
  | none => none

/-- First match of `status\/(\d+)` (quote-tweet id extraction). -/
def extractStatusId (url : String) : Option String :=
  findFirst matchStatusAt url.data

/-- Matcher for one global match of `x\.com\/\w+\/status\/(\d+)` (archive scan). -/
def matchArchiveAt (l : List Char) : Option (String × List Char) :=
  match dropLit "x.com/".data l with
  | some r1 =>
    let w := r1.takeWhile isWordChar
    if w.isEmpty then none
    else
      match dropLit "/status/".data (r1.drop w.length) with
      | some r2 =>
        let d := r2.takeWhile Char.isDigit
        if d.isEmpty then none else some (String.mk d, r2.drop d.length)
      | none => none
  | none => none

/-- Model of `getExistingBookmarkIds` archive scan: all matches of
`x\.com\/\w+\/status\/(\d+)` over the archive document text. -/
def scanArchiveIds (content : String) : List String :=
  scanAll matchArchiveAt content.data.length content.data

/-- Matcher for one global match of `https?:\/\/t\.co\/\w+`. -/
def matchTcoAt (l : List Char) : Option (String × List Char) :=
  match dropLit "https://t.co/".data l with
  | some r =>
    let w := r.takeWhile isWordChar
    if w.isEmpty then none
    else some ("https://t.co/" ++ String.mk w, r.drop w.length)
  | none =>
    match dropLit "http://t.co/".data l with
    | some r =>
      let w := r.takeWhile isWordChar
      if w.isEmpty then none
      else some ("http://t.co/" ++ String.mk w, r.drop w.length)
    | none => none

/-- All matches of `https?:\/\/t\.co\/\w+` in the tweet text. -/
def extractTcoLinks (text : String) : List String :=
  scanAll matchTcoAt text.data.length text.data

/-- Matcher for `github\.com\/([^\/]+)\/([^\/]+)` at one position,
yielding owner and repo (with a trailing `.git` stripped from repo). -/
def matchGitHubAt (l : List Char) : Option (String × String) :=
  match dropLit "github.com/".data l with
  | some r =>
    let owner := r.takeWhile (fun c => c ≠ '/')
    if owner.isEmpty then none
    else
      match r.drop owner.length with
      | '/' :: r2 =>
        let repo := r2.takeWhile (fun c => c ≠ '/')
        if repo.isEmpty then none
        else some (String.mk owner, stripDotGit (String.mk repo))
      | _ => none
  | none => none
where
  stripDotGit (s : String) : String :=
    if decide (".git".data <:+ s.data) then String.mk (s.data.take (s.data.length - 4))
    else s

/-- Model of `extractGitHubInfo`: owner/repo from the first `github.com/…/…` occurrence. -/
def extractGitHubInfo (url : String) : Option (String × String) :=
  findFirst matchGitHubAt url.data

/-- Model of `/^\d+$/.test(id)`: non-empty and all decimal digits. -/
def isNumericStr (s : String) : Bool := !s.isEmpty && s.data.all Char.isDigit

/-! ## Data model -/

/-- A natively attached quoted tweet (`bookmark.quotedTweet`). -/
structure QuotedTweet where
  id : String
  authorUsername : Option String
  authorName : Option String
  text : String
deriving DecidableEq

/-- A raw bookmark record as returned by the bird CLI (`tweets` entries).
`folderTag`/`folderId` model the `_folderTag`/`_folderId` fields that
`fetchFromFolders` attaches. `createdAt` is the parsed epoch-millisecond
timestamp of `bookmark.createdAt` (`none` when the field is absent). -/
structure Tweet where
  id : String
  text : String
  authorUsername : Option String
  authorName : Option String
  createdAt : Option Nat
  inReplyToStatusId : Option String
  quotedTweet : Option QuotedTweet
  media : List String
  folderTag : Option String := none
  folderId : Option String := none
deriving DecidableEq

/-- JSON document returned by `bird read <id> --json` (used both for quoted
tweets and for X articles). `articleTitle` models `data.article?.title`. -/
structure BirdDoc where
  id : String
  authorUsername : Option String
  authorName : Option String
  text : String
  articleTitle : Option String
deriving DecidableEq

/-- Repository metadata JSON from the GitHub API. -/
structure GhRepoJson where
  name : String
  fullName : String
  description : Option String
  stars : Nat
  language : Option String
  topics : Option (List String)
  htmlUrl : String
deriving DecidableEq

/-- The `data.extracted` object of the summarize CLI output. -/
structure ExtractedDoc where
  title : Option String
  description : Option String
  content : Option String
deriving DecidableEq

/-- Result of `fetchArticleWithSummarize` (source `summarize-cli`). -/
structure SummarizedR where
  title : Option String
  description : Option String
  text : String
deriving DecidableEq

/-- Result of `fetchXArticleContent` (source `bird-cli`):
`{title: data.article?.title || null, text: data.text || ''}`. -/
structure XContent where
  title : Option String
  text : String
deriving DecidableEq

/-- Result union of `fetchContent` / `fetchArticleContent` /
`fetchGitHubContent` (tagged by the `source` field in the JS objects). -/
inductive ContentR where
  | ghub (name fullName : String) (description : String) (stars : Nat)
      (language : Option String) (topics : List String) (readme url : String)
  | summarized (title description : Option String) (text : String)
  | direct (text : String) (paywalled : Bool)
  | paywalledNote (url : String)
deriving DecidableEq

/-- Per-link content attached by the enrichment loop (the `content` field
of a prepared link object, one variant per `source` tag). -/
inductive LinkContent where
  | xArticle (title : Option String) (text : String)
  | quoted (id author authorName text tweetUrl : String)
  | ghub (name fullName : String) (description : String) (stars : Nat)
      (language : Option String) (topics : List String) (readme url : String)
  | summarized (title description : Option String) (text : String)
  | direct (text : Option String) (source : String) (paywalled : Option Bool)
  | fetchError (msg : String)
deriving DecidableEq

/-- One entry of a prepared bookmark's `links` array. -/
structure LinkRec where
  original : String
  expanded : String
  type : String
  content : Option LinkContent
deriving DecidableEq

/-- Reply/quote context record attached to a prepared bookmark. -/
structure ContextRec where
  id : String
  author : String
  authorName : String
  text : String
  tweetUrl : String
deriving DecidableEq

/-- An enriched (prepared) bookmark record, as pushed onto `prepared` and
persisted in the pending queue. -/
structure Enriched where
  id : String
  author : String
  authorName : String
  text : String
  tweetUrl : String
  createdAt : Option Nat
  links : List LinkRec
  media : List String
  tags : List String
  date : String
  isReply : Bool
  replyContext : Option ContextRec
  isQuote : Bool
  quoteContext : Option ContextRec
deriving DecidableEq

/-- The pending-queue JSON document `{generatedAt, count, bookmarks}`. -/
structure PendingDoc where
  generatedAt : String
  count : Nat
  bookmarks : List Enriched
deriving DecidableEq

/-- The run-state JSON document. -/
structure RunState where
  last_processed_id : Option String
  last_check : Option String
  last_processing_run : Option String
deriving DecidableEq

/-- The files the pipeline reads and writes; `none` models a missing or
unparsable (corrupt) file. -/
structure FS where
  pendingFile : Option PendingDoc
  stateFile : Option RunState
  archiveFile : Option String
deriving DecidableEq

/-- Caller configuration (`config.json` fields used by the pipeline).
`folders` is the `folderId ↦ folderTag` map in key order. -/
structure Config where
  source : Option String
  includeMedia : Option Bool
  folders : List (String × String)
deriving DecidableEq

/-- Caller options of `fetchAndPrepareBookmarks`. -/
structure Options where
  source : Option String := none
  includeMedia : Option Bool := none
  count : Option Nat := none
  all : Bool := false
  maxPages : Option Nat := none
  force : Bool := false
  specificIds : Option (List String) := none
deriving DecidableEq

/-- External collaborators, modelled as pure oracles. `Except.error`
models a thrown exception, `Option.none` a call that the source code
converts to `null` internally. -/
structure Oracles where
  fetchBookmarks : Option String → Except String (List Tweet)
  fetchLikes : Except String (List Tweet)
  birdRead : String → Option BirdDoc
  httpHead : String → Except String (Option String)
  urlProtocol : String → Option String
  summarize : String → Option ExtractedDoc
  ghRepo : String → String → Except String GhRepoJson
  ghReadme : String → String → Option String
  directFetch : String → Except String String
  formatDate : Option Nat → String
  now : String

/-! ## Link expansion and content resolvers -/

/-- Model of `expandTcoLink`: follow redirects; on success return `response.url || url`,
on any error (network, timeout, abort) return the original URL. -/
def expandTcoLink (o : Oracles) (url : String) : String :=
  match o.httpHead url with
  | .ok respUrl => respUrl.getD url
  | .error _ => url

/-- Model of `fetchTweet`: `bird read <id>`, `null` on failure. -/
def fetchTweet (o : Oracles) (tweetId : String) : Option BirdDoc :=
  o.birdRead tweetId

/-- Model of `fetchXArticleContent`: reject non-numeric ids before invoking the bird
CLI; on success build `{title: data.article?.title || null, text: data.text}`. -/
def fetchXArticleContent (o : Oracles) (articleId : String) : Option XContent :=
  if isNumericStr articleId then
    match o.birdRead articleId with
    | some d => some { title := d.articleTitle, text := d.text }
    | none => none
  else none

/-- Model of `fetchArticleWithSummarize`: validate the URL protocol, then run the
summarize CLI; `none` models every `null` return (bad protocol, CLI failure,
no `extracted` object). -/
def fetchArticleWithSummarize (o : Oracles) (url : String) : Option SummarizedR :=
  match o.urlProtocol url with
  | some p =>
    if p == "http:" || p == "https:" then
      match o.summarize url with
      | some d =>
        some { title := d.title, description := d.description, text := d.content.getD "" }
      | none => none
    else none
  | none => none

/-- The paywall heuristic of the direct-fetch path. -/
def paywallHeur (result : String) : Bool :=
  (strContains result "Subscribe" && strContains result "sign in")
    || strContains result "This article is for subscribers"
    || decide (result.length < 1000)

/-- Model of `fetchArticleContent`: summarize CLI first; if it produced no body text,
fall back to a direct fetch capped at 50000 characters with the paywall
heuristic; a direct-fetch failure is rethrown. -/
def fetchArticleContent (o : Oracles) (url : String) : Except String ContentR :=
  let direct : Except String ContentR :=
    match o.directFetch url with
    | .ok body =>
      let result := body.take 50000
      .ok (.direct result (paywallHeur result))
    | .error e => .error e
  match fetchArticleWithSummarize o url with
  | some s => if s.text.isEmpty then direct else .ok (.summarized s.title s.description s.text)
  | none => direct

/-- Model of `fetchGitHubContent`: parse owner/repo, call the repo API (failure is
rethrown), fetch the README best-effort and truncate it to 5000 characters. -/
def fetchGitHubContent (o : Oracles) (url : String) : Except String ContentR :=
  match extractGitHubInfo url with
  | none => .error "Could not parse GitHub URL"
  | some (owner, repo) =>
    match o.ghRepo owner repo with
    | .error e => .error e
    | .ok rj =>
      let readme :=
        match o.ghReadme owner repo with
        | some c => if c.length > 5000 then c.take 5000 ++ "\n...[truncated]" else c
        | none => ""
      .ok (.ghub rj.name rj.fullName (rj.description.getD "") rj.stars rj.language
        (rj.topics.getD []) readme rj.htmlUrl)

/-- Model of `fetchContent`: try the GitHub API for `github` links (a failure falls
through), then short-circuit known paywalled domains, else article fetch. -/
def fetchContent (o : Oracles) (url type : String) : Except String ContentR :=
  let rest : Except String ContentR :=
    if isPaywalled url then .ok (.paywalledNote url) else fetchArticleContent o url
  if type == "github" then
    match fetchGitHubContent o url with
    | .ok c => .ok c
    | .error _ => rest
  else rest

/-! ## Enrichment pipeline -/

/-- Normalization of a `fetchContent` result into the link `content` object
(the `if/else` chain over `fetchResult.source` in the enrichment loop). -/
def normalizeFetched : ContentR → LinkContent
  | .ghub n fn d s lg tp rd u => .ghub n fn d s lg tp rd u
  | .summarized t d x => .summarized t d (x.take 50000)
  | .direct x p => .direct (some (x.take 10000)) "direct" (some p)
  | .paywalledNote _ => .direct none "paywalled" none

/-- Per-type content dispatch of the enrichment loop.  `x-article` links are
resolved with the containing bookmark's own id, `tweet` links with the status
id parsed from the expanded URL, `article`/`github` links through
`fetchContent` (whose thrown errors become an error content object);
all other kinds get no content. -/
def resolveLinkContent (o : Oracles) (bookmarkId expanded type : String) :
    Option LinkContent :=
  if type == "x-article" then
    match fetchXArticleContent o bookmarkId with
    | some ac => some (.xArticle ac.title ac.text)
    | none => none
  else if type == "tweet" then
    match extractStatusId expanded with
    | some quotedTweetId =>
      match fetchTweet o quotedTweetId with
      | some qt =>
        some (.quoted qt.id (qt.authorUsername.getD "unknown")
          (qt.authorName.getD (qt.authorUsername.getD "unknown")) qt.text
          ("https://x.com/" ++ qt.authorUsername.getD "unknown" ++ "/status/" ++ qt.id))
      | none => none
    | none => none
  else if type == "article" || type == "github" then
    match fetchContent o expanded type with
    | .ok r => some (normalizeFetched r)
    | .error e => some (.fetchError e)
  else none

/-- Expansion, classification and resolution of one t.co link. -/
def processLink (o : Oracles) (bookmarkId link : String) : LinkRec :=
  let expanded := expandTcoLink o link
  let type := detectLinkType expanded
  { original := link, expanded := expanded, type := type,
    content := resolveLinkContent o bookmarkId expanded type }

/-- Context record built from a `bird read` document. -/
def contextOfDoc (d : BirdDoc) : ContextRec :=
  { id := d.id, author := d.authorUsername.getD "unknown",
    authorName := d.authorName.getD (d.authorUsername.getD "unknown"),
    text := d.text,
    tweetUrl := "https://x.com/" ++ d.authorUsername.getD "unknown" ++ "/status/" ++ d.id }

/-- Per-bookmark enrichment (the body of the `for (const bookmark of
toProcess)` loop): expand and resolve links, attach reply and quote context,
gate media behind `includeMedia`, derive tags from the folder tag. -/
def prepareBookmark (o : Oracles) (includeMedia : Bool) (b : Tweet) : Enriched :=
  let text := b.text
  let date := o.formatDate b.createdAt
  let author := b.authorUsername.getD "unknown"
  let links := (extractTcoLinks text).map (processLink o b.id)
  let replyContext :=
    match b.inReplyToStatusId with
    | some parentId => (fetchTweet o parentId).map contextOfDoc
    | none => none
  let quoteContext :=
    match b.quotedTweet with
    | some qt =>
      some { id := qt.id, author := qt.authorUsername.getD "unknown",
             authorName := qt.authorName.getD (qt.authorUsername.getD "unknown"),
             text := qt.text,
             tweetUrl := "https://x.com/" ++ qt.authorUsername.getD "unknown"
               ++ "/status/" ++ qt.id : ContextRec }
    | none => none
  let media := if includeMedia then b.media else []
  let tags := match b.folderTag with | some t => [t] | none => []
  { id := b.id, author := author,
    authorName := b.authorName.getD author,
    text := text,
    tweetUrl := "https://x.com/" ++ author ++ "/status/" ++ b.id,
    createdAt := b.createdAt,
    links := links, media := media, tags := tags, date := date,
    isReply := b.inReplyToStatusId.isSome, replyContext := replyContext,
    isQuote := quoteContext.isSome, quoteContext := quoteContext }

/-! ## Fetch fan-in (`fetchFromSource`, `fetchFromFolders`) -/

/-- Merge-and-dedupe by id, keeping first occurrences (`seen` set logic). -/
def dedupeById (seen : List String) : List Tweet → List Tweet
  | [] => []
  | t :: rest =>
    if seen.contains t.id then dedupeById seen rest
    else t :: dedupeById (t.id :: seen) rest

/-- Model of `fetchFromSource`: dispatch on the configured source; `both` merges
bookmarks and likes, deduplicating by id. -/
def fetchFromSource (o : Oracles) (source : String) : Except String (List Tweet) :=
  if source == "bookmarks" then o.fetchBookmarks none
  else if source == "likes" then o.fetchLikes
  else if source == "both" then
    match o.fetchBookmarks none with
    | .error e => .error e
    | .ok bookmarks =>
      match o.fetchLikes with
      | .error e => .error e
      | .ok likes => .ok (dedupeById [] (bookmarks ++ likes))
  else .error ("Invalid source: " ++ source)

/-- Inner loop of `fetchFromFolders`: keep unseen bookmarks of one folder,
tagging each with the folder tag and id. -/
def addFolderBookmarks (folderId folderTag : String) (seen : List String) :
    List Tweet → List String × List Tweet
  | [] => (seen, [])
  | b :: rest =>
    if seen.contains b.id then addFolderBookmarks folderId folderTag seen rest
    else
      let (seen', out) := addFolderBookmarks folderId folderTag (b.id :: seen) rest
      (seen', { b with folderTag := some folderTag, folderId := some folderId } :: out)

/-- Model of `fetchFromFolders`: fetch each configured folder in order; a failing
folder fetch is caught and skipped, never aborting the whole fetch. -/
def fetchFromFolders (o : Oracles) (seen : List String) :
    List (String × String) → List Tweet
  | [] => []
  | (folderId, folderTag) :: rest =>
    match o.fetchBookmarks (some folderId) with
    | .error _ => fetchFromFolders o seen rest
    | .ok bookmarks =>
      let (seen', out) := addFolderBookmarks folderId folderTag seen bookmarks
      out ++ fetchFromFolders o seen' rest

/-! ## Deduplication, merge and persistence -/

/-- Model of `getExistingBookmarkIds` over the file state: scan the archive document;
a missing file yields the empty set. -/
def getExistingBookmarkIds (fs : FS) : List String :=
  match fs.archiveFile with
  | some content => scanArchiveIds content
  | none => []

/-- The batch selection of `fetchAndPrepareBookmarks`: an explicit
`specificIds` allow-list filters the batch to those ids; otherwise `force`
keeps every fetched tweet; otherwise tweets already in the archive index or
the pending queue are excluded. -/
def selectToProcess (specificIds : Option (List String)) (force : Bool)
    (existingIds pendingIds : List String) (tweets : List Tweet) : List Tweet :=
  match specificIds with
  | some ids => tweets.filter (fun b => ids.contains b.id)
  | none =>
    if force then tweets
    else tweets.filter (fun b => !existingIds.contains b.id && !pendingIds.contains b.id)

/-- Sort key of the pending-queue merge: `createdAt` epoch milliseconds,
`0` when the record has no timestamp. -/
def sortKey (b : Enriched) : Nat := b.createdAt.getD 0

/-- The records of the batch whose id is not already in the pending queue. -/
def newBookmarksOf (existing prepared : List Enriched) : List Enriched :=
  let existingPendingIds := existing.map (fun b => b.id)
  prepared.filter (fun b => !existingPendingIds.contains b.id)

/-- The pending-queue merge: append the id-new records and stable-sort the
combined sequence by creation timestamp ascending. -/
def mergePending (existing prepared : List Enriched) : List Enriched :=
  (existing ++ newBookmarksOf existing prepared).mergeSort
    (fun a b => decide (sortKey a ≤ sortKey b))

/-- Model of `loadState`: a missing or corrupt state file yields the null default. -/
def loadState (fs : FS) : RunState :=
  fs.stateFile.getD { last_processed_id := none, last_check := none, last_processing_run := none }

/-- Return value of `fetchAndPrepareBookmarks`. -/
structure RunOut where
  bookmarks : List Enriched
  count : Nat
deriving DecidableEq

/-- The top-level pipeline `fetchAndPrepareBookmarks`, threading file state
explicitly.  The first component of the result is the final file state, the
second the returned value or the propagated exception. -/
def fetchAndPrepareBookmarks (o : Oracles) (cfg : Config) (opts : Options)
    (fs : FS) : FS × Except String RunOut :=
  let state := loadState fs
  let source := opts.source.getD (cfg.source.getD "bookmarks")
  let includeMedia :=
    match opts.includeMedia with
    | some v => v
    | none => cfg.includeMedia.getD false
  let tweetsE : Except String (List Tweet) :=
    if !cfg.folders.isEmpty && source == "bookmarks" then
      .ok (fetchFromFolders o [] cfg.folders)
    else fetchFromSource o source
  match tweetsE with
  | .error e => (fs, .error e)
  | .ok tweets =>
    if tweets.isEmpty then (fs, .ok { bookmarks := [], count := 0 })
    else
      let existingIds := getExistingBookmarkIds fs
      let pendingBookmarks := (fs.pendingFile.map (fun d => d.bookmarks)).getD []
      let pendingIds := pendingBookmarks.map (fun b => b.id)
      let toProcess := selectToProcess opts.specificIds opts.force existingIds pendingIds tweets
      if toProcess.isEmpty then (fs, .ok { bookmarks := [], count := 0 })
      else
        let prepared := toProcess.map (prepareBookmark o includeMedia)
        let merged := mergePending pendingBookmarks prepared
        let fs' : FS :=
          { fs with
            pendingFile := some { generatedAt := o.now, count := merged.length, bookmarks := merged },
            stateFile := some { state with last_check := some o.now } }
        (fs', .ok { bookmarks := prepared, count := prepared.length })

/-! ## Concrete fixtures used by witnesses and counterexamples -/

/-- A base oracle assignment: every external call fails or returns nothing. -/
def oBase : Oracles :=
  { fetchBookmarks := fun _ => .ok []
    fetchLikes := .ok []
    birdRead := fun _ => none
    httpHead := fun _ => .error "network"
    urlProtocol := fun _ => some "https:"
    summarize := fun _ => none
    ghRepo := fun _ _ => .error "boom"
    ghReadme := fun _ _ => none
    directFetch := fun _ => .error "fetch failed"
    formatDate := fun _ => "Monday, January 1, 2024"
    now := "2024-01-01T00:00:00Z" }

/-- Oracles whose redirect-following request succeeds. -/
def oOk : Oracles :=
  { oBase with httpHead := fun _ => .ok (some "https://example.com/a") }

/-- Oracles whose bird CLI read succeeds for id `123`. -/
def oBird : Oracles :=
  { oBase with
    birdRead := fun id =>
      if id == "123" then
        some { id := "123", authorUsername := some "al", authorName := none,
               text := "Body", articleTitle := some "T" }
      else none }

/-- Oracles where the GitHub API fails but the summarize CLI succeeds. -/
def oGhFail : Oracles :=
  { oBase with
    summarize := fun _ =>
      some { title := some "T", description := none, content := some "Body" } }

/-- Oracles whose bookmark fetch always throws. -/
def oFetchFail : Oracles :=
  { oBase with fetchBookmarks := fun _ => .error "Failed to fetch bookmarks: boom" }

/-- A concrete raw bookmark. -/
def t1 : Tweet :=
  { id := "1", text := "hello", authorUsername := some "alice", authorName := none,
    createdAt := some 100, inReplyToStatusId := none, quotedTweet := none, media := [] }

/-- A concrete enriched record with a timestamp. -/
def e1 : Enriched :=
  { id := "1", author := "a", authorName := "a", text := "", tweetUrl := "",
    createdAt := some 50, links := [], media := [], tags := [], date := "",
    isReply := false, replyContext := none, isQuote := false, quoteContext := none }

/-- A concrete enriched record lacking a creation timestamp. -/
def e2 : Enriched := { e1 with id := "2", createdAt := none }

/-- Empty file state. -/
def fs0 : FS := { pendingFile := none, stateFile := none, archiveFile := none }

/-- A configuration with one bookmark folder. -/
def cfgFolders : Config :=
  { source := none, includeMedia := none, folders := [("f1", "research")] }

/-- A configuration without folders. -/
def cfgPlain : Config := { source := none, includeMedia := none, folders := [] }

/-- Default caller options. -/
def optsDefault : Options := {}

/-! ## Claim theorems -/

/-- Claim C2: The link classifier applies its rules in a fixed order with first
match winning: code-host domain → `github`; video domain → `video`; social
domain (x.com/twitter.com) with `/i/article/` → `x-article`, else with
`/photo/` or `/video/` → `media`, else `tweet`; an image filename extension →
`image`; anything else → `article`.  In particular a social-domain URL
containing `/i/article/` always classifies as `x-article` even if it also
structurally resembles a post URL. -/
theorem detectLinkType_ordered_rules (url : String) :
    (strContains url "github.com" = true → detectLinkType url = "github")
  ∧ (strContains url "github.com" = false →
      (strContains url "youtube.com" || strContains url "youtu.be") = true →
      detectLinkType url = "video")
  ∧ (strContains url "github.com" = false →
      (strContains url "youtube.com" || strContains url "youtu.be") = false →
      (strContains url "x.com" || strContains url "twitter.com") = true →
      (strContains url "/i/article/" = true → detectLinkType url = "x-article")
      ∧ (strContains url "/i/article/" = false →
          (strContains url "/photo/" || strContains url "/video/") = true →
          detectLinkType url = "media")
      ∧ (strContains url "/i/article/" = false →
          (strContains url "/photo/" || strContains url "/video/") = false →
          detectLinkType url = "tweet"))
  ∧ (strContains url "github.com" = false →
      (strContains url "youtube.com" || strContains url "youtu.be") = false →
      (strContains url "x.com" || strContains url "twitter.com") = false →
      (hasImageExt url = true → detectLinkType url = "image")
      ∧ (hasImageExt url = false → detectLinkType url = "article")) := by
  refine ⟨fun h1 => ?_, fun h1 h2 => ?_,
    fun h1 h2 h3 => ⟨fun h4 => ?_, fun h4 h5 => ?_, fun h4 h5 => ?_⟩,
    fun h1 h2 h3 => ⟨fun h4 => ?_, fun h4 => ?_⟩⟩ <;>
  simp [detectLinkType, h1, *]

/-- Witness for C2: a social-domain URL that also structurally resembles a
post URL (it contains `/status/`) classifies as `x-article`. -/
theorem detectLinkType_ordered_rules_witness :
    (strContains "https://x.com/jane/status/99/i/article/123" "github.com" = false
      ∧ (strContains "https://x.com/jane/status/99/i/article/123" "youtube.com"
          || strContains "https://x.com/jane/status/99/i/article/123" "youtu.be") = false
      ∧ (strContains "https://x.com/jane/status/99/i/article/123" "x.com"
          || strContains "https://x.com/jane/status/99/i/article/123" "twitter.com") = true
      ∧ strContains "https://x.com/jane/status/99/i/article/123" "/i/article/" = true)
  ∧ detectLinkType "https://x.com/jane/status/99/i/article/123" = "x-article" :=
  ⟨⟨by decide, by decide, by decide, by decide⟩,
   ((detectLinkType_ordered_rules "https://x.com/jane/status/99/i/article/123").2.2.1
     (by decide) (by decide) (by decide)).1 (by decide)⟩

/-- Claim C8: Link expansion returns the original URL unchanged on any network
error, timeout or abort, and the final redirected URL on success. -/
theorem expandTcoLink_spec (o : Oracles) (url : String) :
    (∀ e, o.httpHead url = .error e → expandTcoLink o url = url)
  ∧ (∀ u, o.httpHead url = .ok (some u) → expandTcoLink o url = u) := by
  constructor
  · intro e h; simp [expandTcoLink, h]
  · intro u h; simp [expandTcoLink, h]

/-- Witness for C8: a failing request leaves the URL unchanged, a successful
request yields the redirect target. -/
theorem expandTcoLink_spec_witness :
    (oBase.httpHead "https://t.co/x" = .error "network"
      ∧ expandTcoLink oBase "https://t.co/x" = "https://t.co/x")
  ∧ (oOk.httpHead "https://t.co/x" = .ok (some "https://example.com/a")
      ∧ expandTcoLink oOk "https://t.co/x" = "https://example.com/a") :=
  ⟨⟨rfl, (expandTcoLink_spec oBase "https://t.co/x").1 "network" rfl⟩,
   ⟨rfl, (expandTcoLink_spec oOk "https://t.co/x").2 "https://example.com/a" rfl⟩⟩

/-- Claim C9: The enriched record's media list is the raw record's media exactly
when the media-enrichment flag is enabled; with the flag disabled it is always
empty, whatever the raw record contained. -/
theorem prepareBookmark_media_gate (o : Oracles) (b : Tweet) :
    (prepareBookmark o false b).media = []
  ∧ (prepareBookmark o true b).media = b.media := by
  constructor <;> rfl

/-- Claim C10: `isPaywalled` is a plain substring containment check of the whole
URL string against the eleven fixed paywall domains, and a paywalled URL
short-circuits non-GitHub content resolution to the paywalled marker. -/
theorem isPaywalled_substring_check (url type : String) (o : Oracles) :
    (isPaywalled url = true ↔ ∃ d ∈ PAYWALL_DOMAINS, d.data <:+: url.data)
  ∧ PAYWALL_DOMAINS.length = 11
  ∧ (type ≠ "github" → isPaywalled url = true →
      fetchContent o url type = .ok (.paywalledNote url)) := by
  refine ⟨?_, rfl, ?_⟩
  · simp [isPaywalled, strContains, List.any_eq_true]
  · intro hty hp
    have hbeq : (type == "github") = false := by simpa using hty
    simp [fetchContent, hbeq, hp]

/-- Witness for C10: a URL that merely mentions `wsj.com` in its query string
is treated as paywalled and resolves to the paywalled marker. -/
theorem isPaywalled_substring_check_witness :
    (("article" : String) ≠ "github"
      ∧ isPaywalled "https://example.com/story?via=wsj.com" = true)
  ∧ fetchContent oBase "https://example.com/story?via=wsj.com" "article"
      = .ok (.paywalledNote "https://example.com/story?via=wsj.com") :=
  ⟨⟨by decide, by decide⟩,
   (isPaywalled_substring_check "https://example.com/story?via=wsj.com" "article" oBase).2.2
     (by decide) (by decide)⟩

/-- Claim C5: Social-article resolution queries the read service with the
containing bookmark's own identifier: the resolved content of an `x-article`
link does not depend on the URL (hence not on the article ID embedded in it)
and equals `fetchXArticleContent` at the bookmark id; and for any supplied
identifier that is not a string of decimal digits the result is `none` for
every oracle assignment, so the external read service is never consulted. -/
theorem xArticle_lookup_uses_bookmark_id (o : Oracles) (bookmarkId e e' : String)
    (h : detectLinkType e = "x-article") (h' : detectLinkType e' = "x-article") :
    resolveLinkContent o bookmarkId e (detectLinkType e)
      = resolveLinkContent o bookmarkId e' (detectLinkType e')
  ∧ resolveLinkContent o bookmarkId e (detectLinkType e)
      = (fetchXArticleContent o bookmarkId).map (fun ac => .xArticle ac.title ac.text)
  ∧ (∀ (o₂ : Oracles) (suppliedId : String), isNumericStr suppliedId = false →
      fetchXArticleContent o₂ suppliedId = none) := by
  rw [h, h']
  refine ⟨rfl, ?_, ?_⟩
  · cases hx : fetchXArticleContent o bookmarkId <;> simp [resolveLinkContent, hx]
  · intro o₂ suppliedId hsid
    simp [fetchXArticleContent, hsid]

/-- Witness for C5 at two concrete article URLs with different embedded
article ids, a bookmark id the bird oracle answers, and a non-numeric id. -/
theorem xArticle_lookup_uses_bookmark_id_witness :
    (detectLinkType "https://x.com/i/article/555" = "x-article"
      ∧ detectLinkType "https://x.com/i/article/777" = "x-article"
      ∧ isNumericStr "12a" = false)
  ∧ resolveLinkContent oBird "123" "https://x.com/i/article/555"
      (detectLinkType "https://x.com/i/article/555")
      = (fetchXArticleContent oBird "123").map (fun ac => .xArticle ac.title ac.text)
  ∧ fetchXArticleContent oBird "12a" = none :=
  ⟨⟨by decide, by decide, by decide⟩,
   (xArticle_lookup_uses_bookmark_id oBird "123" "https://x.com/i/article/555"
     "https://x.com/i/article/777" (by decide) (by decide)).2.1,
   (xArticle_lookup_uses_bookmark_id oBird "123" "https://x.com/i/article/555"
     "https://x.com/i/article/777" (by decide) (by decide)).2.2 oBird "12a" (by decide)⟩

/-- Claim C1 counterexample: The claimed precedence `forced-mode >
explicit-allow-list` fails: with force selected *and* an allow-list supplied
that does not mention the fetched tweet, the tweet is not processed, although
the claim requires every fetched item to be processed in force mode. -/
theorem selectToProcess_force_not_first :
    selectToProcess (some ["2"]) true [] [] [t1] ≠ [t1] := by decide

/-- Claim C1 amended: The selection policy is
`explicit-allow-list > forced-mode > standard exclusion`: if an allow-list is
supplied, exactly the fetched items whose identifiers are in the list are
processed (even in force mode); otherwise force mode processes every fetched
item; otherwise an item is processed iff its identifier is in neither the
archive index nor the persisted pending queue. -/
theorem selectToProcess_policy (specificIds : Option (List String)) (force : Bool)
    (existingIds pendingIds : List String) (tweets : List Tweet) (t : Tweet)
    (ht : t ∈ tweets) :
    t ∈ selectToProcess specificIds force existingIds pendingIds tweets ↔
      (match specificIds with
       | some ids => t.id ∈ ids
       | none => force = true ∨ (t.id ∉ existingIds ∧ t.id ∉ pendingIds)) := by
  cases specificIds with
  | some ids => simp [selectToProcess, List.mem_filter, ht]
  | none =>
    cases force with
    | true => simp [selectToProcess, ht]
    | false => simp [selectToProcess, List.mem_filter, ht]

/-- Witness for C1 (amended) at a concrete batch and allow-list. -/
theorem selectToProcess_policy_witness :
    t1 ∈ [t1]
  ∧ (t1 ∈ selectToProcess (some ["1"]) false [] [] [t1] ↔ t1.id ∈ ["1"]) :=
  ⟨by decide, selectToProcess_policy (some ["1"]) false [] [] [t1] t1 (by decide)⟩

/-- The merged queue is a permutation of existing entries plus id-new records. -/
theorem mergePending_perm (existing prepared : List Enriched) :
    List.Perm (mergePending existing prepared)
      (existing ++ newBookmarksOf existing prepared) :=
  List.mergeSort_perm _ _

/-- A record of the filtered batch has an id not present in the pending queue. -/
theorem newBookmarksOf_id_not_existing (existing prepared : List Enriched) :
    ∀ b ∈ newBookmarksOf existing prepared, b.id ∉ existing.map (fun c => c.id) := by
  intro b hb
  have hmem := (List.mem_filter.mp hb).2
  simpa using hmem

/-- Claim C3: The pending-queue merge is identifier-unique: a new record whose
identifier already appears in the existing queue is not appended, the
pre-existing entries are all kept, and (for an existing queue and a batch each
satisfying the no-duplicate-identifier invariant) the merged queue contains no
two entries with the same identifier. -/
theorem mergePending_id_unique (existing prepared : List Enriched)
    (hex : (existing.map (fun b => b.id)).Nodup)
    (hp : (prepared.map (fun b => b.id)).Nodup) :
    ((mergePending existing prepared).map (fun b => b.id)).Nodup
  ∧ (∀ b ∈ newBookmarksOf existing prepared, b.id ∉ existing.map (fun c => c.id))
  ∧ (∀ b ∈ existing, b ∈ mergePending existing prepared) := by
  have hperm := mergePending_perm existing prepared
  refine ⟨?_, newBookmarksOf_id_not_existing existing prepared, ?_⟩
  · have hpermMap := hperm.map (fun b => b.id)
    rw [List.map_append] at hpermMap
    apply hpermMap.nodup_iff.mpr
    rw [List.nodup_append]
    refine ⟨hex, ?_, ?_⟩
    · exact hp.sublist ((List.filter_sublist prepared).map (fun b => b.id))
    · intro x hx hx'
      obtain ⟨b, hb, rfl⟩ := List.mem_map.mp hx'
      exact newBookmarksOf_id_not_existing existing prepared b hb hx
  · intro b hb
    exact hperm.mem_iff.mpr (List.mem_append_left _ hb)

/-- Witness for C3 at a concrete queue and batch. -/
theorem mergePending_id_unique_witness :
    (([e1].map (fun b => b.id)).Nodup ∧ ([e2].map (fun b => b.id)).Nodup)
  ∧ ((mergePending [e1] [e2]).map (fun b => b.id)).Nodup :=
  ⟨⟨by decide, by decide⟩,
   (mergePending_id_unique [e1] [e2] (by decide) (by decide)).1⟩

/-- The merge comparison function is transitive. -/
theorem mergeLe_trans (a b c : Enriched)
    (hab : decide (sortKey a ≤ sortKey b) = true)
    (hbc : decide (sortKey b ≤ sortKey c) = true) :
    decide (sortKey a ≤ sortKey c) = true := by
  simp only [decide_eq_true_eq] at *
  omega

/-- The merge comparison function is total. -/
theorem mergeLe_total (a b : Enriched) :
    (decide (sortKey a ≤ sortKey b) || decide (sortKey b ≤ sortKey a)) = true := by
  simpa using Nat.le_total (sortKey a) (sortKey b)

/-- Claim C4: The merged pending queue is sorted by original creation timestamp
ascending (for all adjacent pairs `a, b`, `sortKey a ≤ sortKey b`); a record
lacking a creation timestamp gets sort key epoch `0` (hence the earliest
position); and ties keep their original relative order: for every timestamp
value, the merged queue restricted to records of that key equals the combined
pre-sort sequence restricted to that key. -/
theorem mergePending_sorted_spec (existing prepared : List Enriched) :
    List.Chain' (fun a b => sortKey a ≤ sortKey b) (mergePending existing prepared)
  ∧ (∀ b : Enriched, b.createdAt = none → sortKey b = 0)
  ∧ (∀ t : Nat,
      (mergePending existing prepared).filter (fun b => sortKey b == t)
        = (existing ++ newBookmarksOf existing prepared).filter (fun b => sortKey b == t)) := by
  refine ⟨?_, ?_, ?_⟩
  · have hpw := List.sorted_mergeSort mergeLe_trans mergeLe_total
      (existing ++ newBookmarksOf existing prepared)
    exact (hpw.imp (fun h => of_decide_eq_true h)).chain'
  · intro b h
    simp [sortKey, h]
  · intro t
    set l := existing ++ newBookmarksOf existing prepared with hl
    set p : Enriched → Bool := fun b => sortKey b == t with hpdef
    have hkey : ∀ b ∈ l.filter p, sortKey b = t := by
      intro b hb
      have := (List.mem_filter.mp hb).2
      simpa [hpdef] using this
    have hpwf : (l.filter p).Pairwise (fun a b => decide (sortKey a ≤ sortKey b)) := by
      apply List.pairwise_of_forall_mem_list
      intro a ha b hb
      rw [hkey a ha, hkey b hb]
      simp
    have hstable : List.Sublist (l.filter p)
        (l.mergeSort (fun a b => decide (sortKey a ≤ sortKey b))) :=
      List.sublist_mergeSort mergeLe_trans mergeLe_total hpwf (List.filter_sublist l)
    have hsub2 : List.Sublist (l.filter p) ((mergePending existing prepared).filter p) := by
      have h2 := hstable.filter p
      rwa [List.filter_filter, List.filter_congr (fun a _ => by rw [Bool.and_self])] at h2
    have hperm : List.Perm ((mergePending existing prepared).filter p) (l.filter p) :=
      (mergePending_perm existing prepared).filter p
    exact (hsub2.eq_of_length hperm.length_eq.symm).symm

/-- Witness for C4 at a concrete merge, with a record lacking a timestamp. -/
theorem mergePending_sorted_spec_witness :
    List.Chain' (fun a b => sortKey a ≤ sortKey b) (mergePending [] [e1])
  ∧ e2.createdAt = none ∧ sortKey e2 = 0 :=
  ⟨(mergePending_sorted_spec [] [e1]).1, rfl,
   (mergePending_sorted_spec [] [e1]).2.1 e2 rfl⟩

/-- Claim C6 counterexample: When the code-host API call fails, the failure is
*not* propagated to the caller and a fallback *is* attempted: at a concrete
GitHub URL with a failing repo API and a succeeding extraction service, the
resolver returns the extraction result instead of an error. -/
theorem github_failure_not_propagated :
    fetchGitHubContent oGhFail "https://github.com/a/b" = .error "boom"
  ∧ fetchContent oGhFail "https://github.com/a/b" "github"
      = .ok (.summarized (some "T") none "Body") := ⟨rfl, rfl⟩

/-- Claim C6 amended: When the code-host API call fails, the resolver does not
propagate the failure; it falls back to the generic resolution chain for the
URL: the paywalled-domain check short-circuits known paywalled domains, and
otherwise content extraction / direct fetch is attempted. -/
theorem github_api_failure_falls_back (o : Oracles) (url e : String)
    (hgh : fetchGitHubContent o url = .error e) :
    (isPaywalled url = false → fetchContent o url "github" = fetchArticleContent o url)
  ∧ (isPaywalled url = true → fetchContent o url "github" = .ok (.paywalledNote url)) := by
  constructor <;> intro hp <;> simp [fetchContent, hgh, hp]

/-- Witness for C6 (amended): the failing GitHub API call at a non-paywalled
URL degrades to the article-content chain. -/
theorem github_api_failure_falls_back_witness :
    (fetchGitHubContent oGhFail "https://github.com/a/b" = .error "boom"
      ∧ isPaywalled "https://github.com/a/b" = false)
  ∧ fetchContent oGhFail "https://github.com/a/b" "github"
      = fetchArticleContent oGhFail "https://github.com/a/b" :=
  ⟨⟨rfl, by decide⟩,
   (github_api_failure_falls_back oGhFail "https://github.com/a/b" "boom" rfl).1 (by decide)⟩

/-- Claim C7 counterexample: With a bookmark folder configured, a failing
upstream bookmark-source fetch call does *not* propagate: the per-folder
failure is caught and the run completes normally (here with an empty result),
contradicting the claim that the error propagates and the run aborts. -/
theorem folder_fetch_failure_not_propagated :
    oFetchFail.fetchBookmarks (some "f1") = .error "Failed to fetch bookmarks: boom"
  ∧ fetchAndPrepareBookmarks oFetchFail cfgFolders optsDefault fs0
      = (fs0, .ok { bookmarks := [], count := 0 }) := ⟨rfl, rfl⟩

/-- Claim C7 amended: When the pipeline fetches from a single source (no
folders configured for the bookmarks source), a failing upstream fetch
propagates the error and the run aborts with the pending-queue and state
files exactly as they were; in folder mode, per-folder fetch failures are
caught and the run never aborts because of them. -/
theorem fetch_failure_aborts_without_writes (o : Oracles) (cfg : Config)
    (opts : Options) (fs : FS) (e : String) :
    ((!cfg.folders.isEmpty
        && (opts.source.getD (cfg.source.getD "bookmarks") == "bookmarks")) = false →
      fetchFromSource o (opts.source.getD (cfg.source.getD "bookmarks")) = .error e →
      fetchAndPrepareBookmarks o cfg opts fs = (fs, .error e))
  ∧ ((!cfg.folders.isEmpty
        && (opts.source.getD (cfg.source.getD "bookmarks") == "bookmarks")) = true →
      ∃ out, (fetchAndPrepareBookmarks o cfg opts fs).2 = .ok out) := by
  constructor
  · intro hcond hfail
    simp [fetchAndPrepareBookmarks, hcond, hfail]
  · intro hcond
    simp only [fetchAndPrepareBookmarks, hcond, if_true]
    split
    · exact ⟨_, rfl⟩
    · split
      · exact ⟨_, rfl⟩
      · split
        · exact ⟨_, rfl⟩
        · exact ⟨_, rfl⟩

/-- Witness for C7 (amended): without folders, the failing source fetch
propagates and leaves the file state untouched. -/
theorem fetch_failure_aborts_without_writes_witness :
    ((!cfgPlain.folders.isEmpty
        && (optsDefault.source.getD (cfgPlain.source.getD "bookmarks") == "bookmarks")) = false
      ∧ fetchFromSource oFetchFail (optsDefault.source.getD (cfgPlain.source.getD "bookmarks"))
          = .error "Failed to fetch bookmarks: boom")
  ∧ fetchAndPrepareBookmarks oFetchFail cfgPlain optsDefault fs0
      = (fs0, .error "Failed to fetch bookmarks: boom") :=
  ⟨⟨rfl, rfl⟩,
   (fetch_failure_aborts_without_writes oFetchFail cfgPlain optsDefault fs0
     "Failed to fetch bookmarks: boom").1 rfl rfl⟩

end Smaug
